import Mathlib

/-!
Verification of the Analysis, Embedding & Clustering
Engine (src/feeder/analyzer.py, src/feeder/clustering.py,
src/feeder/news_brief.py) against its natural-language specification.

Modelling conventions:
* Python floats are modelled as rationals (`ℚ`); the source never relies on
  IEEE rounding in the properties proved here.  IEEE `inf`/`nan` literals are
  outside the rational model.
* External services (the generative-language call, the embedding call, the
  DBSCAN density clustering from scikit-learn, and the `json.loads` of Python
  where its result only flows onward) are modelled as explicit function
  parameters ("oracles"); theorems quantify over them, so every proved
  property holds for every behaviour of the external code.
* Database tables are modelled as Lean lists of records; a SQLAlchemy query
  is a list filter/find, a flush/commit is a pure value.
-/

namespace Feeder

/-- A Python value as produced by `json.loads`: strings, ints, floats,
booleans, `None`, lists and dicts.  Dicts are association lists; lookup takes
the last binding, matching `json.loads` duplicate-key behaviour. -/
inductive PyVal where
  | str (s : String)
  | int (n : Int)
  | float (q : ℚ)
  | bool (b : Bool)
  | pynone
  | list (xs : List PyVal)
  | dict (kvs : List (String × PyVal))

/-- Python `dict.get(k, d)`: the value of the last binding of `k`, else `d`. -/
def dictGet (kvs : List (String × PyVal)) (k : String) (d : PyVal) : PyVal :=
  match kvs.reverse.find? (fun p => p.1 = k) with
  | some p => p.2
  | none => d

/-- The Python `\s` character class (also the `str.strip()` character set). -/
def isPySpace (c : Char) : Bool :=
  c = ' ' ∨ c = '\t' ∨ c = '\n' ∨ c = '\r' ∨ c = '\x0b' ∨ c = '\x0c'

/-- Python `str.strip()`: shave whitespace from both ends. -/
def pyStrip (s : String) : String :=
  String.mk ((s.toList.dropWhile isPySpace).reverse.dropWhile isPySpace).reverse

/-- Character-list test that the first list begins the second. -/
def leadsWith : List Char → List Char → Bool
  | [], _ => true
  | _ :: _, [] => false
  | a :: as, b :: bs => a == b && leadsWith as bs

/-- Python `str.startswith` on code points. -/
def pyStartsWith (s pat : String) : Bool :=
  leadsWith pat.toList s.toList

/-- Python `str.endswith` on code points. -/
def pyEndsWith (s pat : String) : Bool :=
  leadsWith pat.toList.reverse s.toList.reverse

/-- Python `str[n:]` on code points. -/
def pyDrop (n : Nat) (s : String) : String :=
  String.mk (s.toList.drop n)

/-- Fueled worker for `str.split(sep)`; the fuel is strictly larger than the
input length, so the base case is never reached for the non-empty separators
the source uses. -/
def pySplitAux (sep : List Char) : Nat → List Char → List Char → List (List Char)
  | 0, cs, acc => [acc ++ cs]
  | fuel + 1, cs, acc =>
    match cs with
    | [] => [acc]
    | c :: rest =>
      if leadsWith sep (c :: rest) then
        acc :: pySplitAux sep fuel (List.drop sep.length (c :: rest)) []
      else pySplitAux sep fuel rest (acc ++ [c])

/-- Python `str.split(sep)` for a non-empty separator: non-overlapping
left-to-right splits, keeping empty pieces. -/
def pySplit (sep : String) (s : String) : List String :=
  (pySplitAux sep.toList (s.toList.length + 1) s.toList []).map String.mk

/-- `str.split` specialised to single-character separators over char lists. -/
def splitOnChar (c : Char) (cs : List Char) : List (List Char) :=
  pySplitAux [c] (cs.length + 1) cs []

/-- `sep.join(...)`: pieces interleaved with a separator. -/
def joinSep (sep : String) : List String → String
  | [] => ""
  | [x] => x
  | x :: xs => x ++ sep ++ joinSep sep xs

/-- Value of a run of decimal digits; `none` when empty or a non-digit occurs. -/
def digitsVal (cs : List Char) : Option Nat :=
  if cs = [] then none
  else if cs.all Char.isDigit then
    some (cs.foldl (fun a c => a * 10 + (c.toNat - 48)) 0)
  else none

/-- Mantissa of a Python float literal: digits, optionally with one dot
(`"1"`, `"1.5"`, `"1."`, `".5"`). -/
def mantissaVal (cs : List Char) : Option ℚ :=
  match splitOnChar '.' cs with
  | [ip] => (digitsVal ip).map (fun n => (n : ℚ))
  | [ip, fp] =>
    if ip = [] ∧ fp = [] then none
    else if ip.all Char.isDigit ∧ fp.all Char.isDigit then
      match digitsVal ip, digitsVal fp with
      | some i, some f => some ((i : ℚ) + (f : ℚ) / (10 : ℚ) ^ fp.length)
      | some i, none => some (i : ℚ)
      | none, some f => some ((f : ℚ) / (10 : ℚ) ^ fp.length)
      | none, none => none
    else none
  | _ => none

/-- Exponent of a Python float literal: optional sign then digits. -/
def exponentVal (cs : List Char) : Option Int :=
  match cs with
  | '+' :: r => (digitsVal r).map (fun n => (n : Int))
  | '-' :: r => (digitsVal r).map (fun n => -(n : Int))
  | r => (digitsVal r).map (fun n => (n : Int))

/-- Python `float(s)` on a string: strip whitespace, optional sign, decimal
mantissa, optional `e`-exponent.  `inf`/`nan` are outside the rational model
(no property proved here touches them); underscores in numeric literals are
likewise not modelled. -/
def pyFloatOfString (s : String) : Option ℚ :=
  let cs := ((pyStrip s).toList).map Char.toLower
  let (sgn, cs) : ℚ × List Char :=
    match cs with
    | '+' :: r => (1, r)
    | '-' :: r => (-1, r)
    | r => (1, r)
  match splitOnChar 'e' cs with
  | [m] => (mantissaVal m).map (fun q => sgn * q)
  | [m, ex] =>
    match mantissaVal m, exponentVal ex with
    | some q, some e => some (sgn * q * (10 : ℚ) ^ e)
    | _, _ => none
  | _ => none

/-- Python `float(v)`: numbers and booleans coerce, numeric strings parse,
everything else (`None`, lists, dicts, non-numeric strings) raises
(`none` models the raised `ValueError`/`TypeError`). -/
def pyFloat (v : PyVal) : Option ℚ :=
  match v with
  | .int n => some (n : ℚ)
  | .float q => some q
  | .bool b => some (cond b 1 0)
  | .str s => pyFloatOfString s
  | _ => none

/-- Rendering of a rational standing for a Python float.  The
shortest-roundtrip float repr is not modelled bit-for-bit (no property proved
here inspects these strings). -/
def ratRepr (q : ℚ) : String :=
  toString q

mutual

/-- Python `repr(v)`; string escaping and quote choice are simplified to
plain single quotes (no property proved here inspects rendered containers). -/
def pyRepr : PyVal → String
  | .str s => "\x27" ++ s ++ "\x27"
  | .int n => toString n
  | .float q => ratRepr q
  | .bool b => cond b "True" "False"
  | .pynone => "None"
  | .list xs => "[" ++ joinSep ", " (pyReprList xs) ++ "]"
  | .dict kvs => "\x7b" ++ joinSep ", " (pyReprDict kvs) ++ "\x7d"

/-- Renderings of the elements of a Python list. -/
def pyReprList : List PyVal → List String
  | [] => []
  | v :: vs => pyRepr v :: pyReprList vs

/-- Renderings of the key/value pairs of a Python dict. -/
def pyReprDict : List (String × PyVal) → List String
  | [] => []
  | (k, v) :: kvs => ("\x27" ++ k ++ "\x27: " ++ pyRepr v) :: pyReprDict kvs

end

/-- Python `str(v)`: identity on strings, `repr` otherwise. -/
def pyStr (v : PyVal) : String :=
  match v with
  | .str s => s
  | v => pyRepr v

/-- The validated analysis dictionary built by `analyze_content`
(analyzer.py lines 183-203). -/
structure ValidatedResult where
  summary : String
  sentiment_score : ℚ
  topics : List String
  entities : List String
deriving DecidableEq

/-- Validation stage of `analyze_content` (analyzer.py lines 183-203), applied
to the object produced by the structured parse (`json.loads`).  Mirrors the
source exactly: `summary` is stringified and stripped; `sentiment_score` goes
through `float(...)` whose failure is NOT caught by the
`except json.JSONDecodeError` handler and therefore propagates to the outer
`except Exception` at line 226, making `analyze_content` return `None`
(modelled as `none` here); `topics`/`entities` are reset to `[]` when not
lists, topics are stringified and capped to the first 5, entities are
stringified.  A parsed value that is not a dict has no `.get` attribute, which
likewise raises and surfaces as `none`. -/
def analyze_content_validate (j : PyVal) : Option ValidatedResult :=
  match j with
  | .dict kvs =>
    let summary := pyStrip (pyStr (dictGet kvs "summary" (.str "")))
    match pyFloat (dictGet kvs "sentiment_score" (.float 0)) with
    | none => none
    | some score =>
      let topics :=
        match dictGet kvs "topics" (.list []) with
        | .list ts => (ts.map pyStr).take 5
        | _ => []
      let entities :=
        match dictGet kvs "entities" (.list []) with
        | .list es => es.map pyStr
        | _ => []
      some ⟨summary, score, topics, entities⟩
  | _ => none

/-- An `articles` row (models.py `Article`), restricted to the columns this
core reads.  `published_at` timestamps are modelled as integers;
`feed_name` collapses the `feed` relationship to the one field read
(`article.feed.name`), `none` standing for a missing feed or name. -/
structure Article where
  id : Nat
  title : String
  content : Option String
  summary : Option String
  published_at : Option Int
  feed_name : Option String
  analyzed : Bool
deriving DecidableEq

/-- An `article_analyses` row (models.py `ArticleAnalysis`).  `topics` and
`key_entities` are the stored strings exactly as the source keeps them
(analyzer.py writes `json.dumps` output into them).  `embedding` stands for
the stored JSON text through the eyes of `json.loads`: `some v` when the
stored string parses to the list `v`, `none` when the column is NULL/empty,
unparsable, or not a list (every one of which the source skips). -/
structure ArticleAnalysis where
  article_id : Nat
  sentiment_score : ℚ
  topics : String
  key_entities : String
  summary : String
  embedding : Option (List ℚ)
deriving DecidableEq

/-- A `clusters` row (models.py `Cluster`); autoincrement ids are modelled as
positional naturals within a run. -/
structure Cluster where
  id : Nat
  name : String
  description : String
  run_id : String
deriving DecidableEq

/-- A `cluster_memberships` row (models.py `ClusterMembership`). -/
structure ClusterMembership where
  cluster_id : Nat
  article_id : Nat
  similarity_score : ℚ
deriving DecidableEq

/-- Python truthiness of a nullable string column: `None` and `""` are falsy. -/
def truthyStr (o : Option String) : Bool :=
  match o with
  | some s => s ≠ ""
  | none => false

/-- `json.dumps` of a list of strings (the form analyzer.py stores into the
`topics`/`key_entities` columns): elements double-quoted, separated by
`", "`.  JSON string escaping is not modelled; no input used here contains
characters needing escapes. -/
def jsonDumpsList (l : List String) : String :=
  "[" ++ joinSep ", " (l.map (fun s => "\"" ++ s ++ "\"")) ++ "]"

/-- Result of one `analyze_article` call: the returned boolean, the
`article_analyses` table after the call, and the article row after the call
(the source flips `article.analyzed` on success). -/
structure AnalyzeOutcome where
  ok : Bool
  records : List ArticleAnalysis
  article : Article
deriving DecidableEq

/-- `analyze_article` (analyzer.py lines 31-108) over the list-of-rows store.
The generative analysis (`analyze_content`, already validated) and the
embedding service (`get_embedding`) enter as oracles returning `none` on
failure; the source treats a `None`/falsy analysis dict and a `None`
embedding as failure, and both oracle images (a 4-key dict, a vector) are
truthy, so `none` captures the falsiness tests of the source exactly.
Mirrors the source order: existing-record check first (lines 49-55, the
skip path returns `True` touching nothing), then the content/summary
truthiness chain (line 61), then analysis, then embedding, then the insert
of exactly one row plus the `analyzed` flag flip. -/
def analyze_article (article : Article) (db : List ArticleAnalysis)
    (analyzeContent : String → String → Option ValidatedResult)
    (getEmbedding : String → Option (List ℚ)) : AnalyzeOutcome :=
  match db.find? (fun a => a.article_id = article.id) with
  | some _ => ⟨true, db, article⟩
  | none =>
    let content :=
      if truthyStr article.content then article.content.getD ""
      else if truthyStr article.summary then article.summary.getD ""
      else ""
    if content = "" then ⟨false, db, article⟩
    else
      match analyzeContent article.title content with
      | none => ⟨false, db, article⟩
      | some res =>
        match getEmbedding content with
        | none => ⟨false, db, article⟩
        | some _emb =>
          ⟨true,
           db ++ [⟨article.id, res.sentiment_score, jsonDumpsList res.topics,
                   jsonDumpsList res.entities, res.summary,
                   some _emb⟩],
           { article with analyzed := true }⟩

/-- `get_article_embeddings` (clustering.py lines 16-40): walk the analyzed
articles, keep each loadable non-empty embedding together with its article
id.  The `article.analysis and article.analysis.embedding` truthiness test,
the `json.loads` try/except and the `if embedding and len(embedding) > 0`
test collapse onto the `Option (List ℚ)` embedding model: `none` or `[]`
is skipped, anything else is kept. -/
def get_article_embeddings : List (Article × Option ArticleAnalysis) → List (List ℚ) × List Nat
  | [] => ([], [])
  | (art, ana) :: rest =>
    let r := get_article_embeddings rest
    match ana with
    | some a =>
      match a.embedding with
      | some emb => if emb ≠ [] then (emb :: r.1, art.id :: r.2) else r
      | none => r
    | none => r

/-- One step of the `topic_counts` dict build (clustering.py lines 205-208):
dicts preserve first-insertion order, counts bump in place. -/
def bumpCount (counts : List (String × Nat)) (t : String) : List (String × Nat) :=
  if counts.any (fun p => p.1 = t) then
    counts.map (fun p => if p.1 = t then (p.1, p.2 + 1) else p)
  else counts ++ [(t, 1)]

/-- The `topic_counts` dict (clustering.py lines 205-208): count every
non-empty topic, first-occurrence order. -/
def topicCounts (l : List String) : List (String × Nat) :=
  l.foldl (fun acc t => if t ≠ "" then bumpCount acc t else acc) []

/-- Stable descending insertion for `sorted(..., key=count, reverse=True)`:
a new element goes after every element with a count ≥ its own, so elements
with equal counts keep their original relative order, exactly as the stable sort of Python does. -/
def insertByCountDesc (x : String × Nat) : List (String × Nat) → List (String × Nat)
  | [] => [x]
  | y :: ys => if y.2 < x.2 then x :: y :: ys else y :: insertByCountDesc x ys

/-- `sorted(topic_counts.items(), key=lambda x: x[1], reverse=True)`
(clustering.py line 211), as a stable descending sort. -/
def sortByCountDesc (l : List (String × Nat)) : List (String × Nat) :=
  l.foldl (fun acc x => insertByCountDesc x acc) []

/-- Naming of one cluster inside `name_clusters` (clustering.py lines
183-226): gather the memberships of the cluster, load the analyses of the members,
split each non-empty stored `topics` string on commas and strip the pieces
(the source does NOT `json.loads` here), count, sort by frequency, and set
name/description. -/
def name_cluster (label : Int) (cluster : Cluster)
    (memberships : List ClusterMembership)
    (analyses : List ArticleAnalysis) : Cluster :=
  let ms := memberships.filter (fun m => m.cluster_id = cluster.id)
  let ids := ms.map (fun m => m.article_id)
  let anas := analyses.filter (fun a => ids.contains a.article_id)
  let all_topics := anas.foldl (fun acc a =>
    if a.topics ≠ "" then acc ++ ((pySplit "," a.topics).map pyStrip) else acc) []
  let sorted := sortByCountDesc (topicCounts all_topics)
  if sorted ≠ [] then
    let top := (sorted.take 3).map (fun p => p.1)
    { cluster with
      name := joinSep " / " top
      description :=
        if ms.length = 1 then "Single article on " ++ top.headD ""
        else "Group of " ++ toString ms.length ++ " articles about " ++
          joinSep ", " top }
  else
    { cluster with
      name := "Cluster " ++ toString label
      description := "Group of " ++ toString ms.length ++ " articles" }

/-- `name_clusters` (clustering.py lines 175-226) over the whole
label-to-cluster map. -/
def name_clusters (cluster_map : List (Int × Cluster))
    (memberships : List ClusterMembership)
    (analyses : List ArticleAnalysis) : List (Int × Cluster) :=
  cluster_map.map (fun p => (p.1, name_cluster p.1 p.2 memberships analyses))

/-- Status strings returned by `cluster_articles`.  The `"error"` status
(the `except` branch, clustering.py lines 162-168) is unreachable in the
pure model, which raises nothing. -/
inductive RunStatus where
  | insufficient_data
  | insufficient_embeddings
  | success
deriving DecidableEq

/-- The dictionary `cluster_articles` returns, together with the `Cluster`
and `ClusterMembership` rows the run committed.  Count keys absent from a
given status dictionary are 0 here. -/
structure RunResult where
  status : RunStatus
  article_count : Nat
  valid_embeddings : Nat
  cluster_count : Nat
  noise_count : Nat
  clusters : List Cluster
  memberships : List ClusterMembership
deriving DecidableEq

/-- The cluster-creation loop of `cluster_articles` (clustering.py lines
110-125): one `Cluster` row per non-noise label, autoincrement ids taken
positionally. -/
def run_cluster_map (labels : List Int) (run_id : String) :
    List (Int × Cluster) :=
  (((labels.eraseDups).filter (fun l => l ≠ -1)).enum).map (fun p =>
    (p.2, ⟨p.1, "Cluster " ++ toString p.2, "", run_id⟩))

/-- The membership-creation loop of `cluster_articles` (clustering.py lines
128-145): one `ClusterMembership` row per non-noise (label, article) pair,
with the placeholder `similarity_score = 1.0` of line 137. -/
def run_memberships (labels : List Int) (ids : List Nat)
    (cluster_map : List (Int × Cluster)) : List ClusterMembership :=
  (labels.zip ids).filterMap (fun p =>
    if p.1 = -1 then none
    else
      match cluster_map.find? (fun q => q.1 = p.1) with
      | some q => some ⟨q.2.id, p.2, 1⟩
      | none => none)

/-- `cluster_articles` (clustering.py lines 43-172).  Inputs: the joined
analyzed-article rows, `min_articles`, the fresh `run_id` (`uuid.uuid4()` is
an oracle string), the DBSCAN fit as an oracle from the embedding matrix to
the label vector, and the `article_analyses` table (read by the naming
pass).  The Python `set(labels)` iterates in an unspecified order; it is
modelled as first-occurrence order (`eraseDups`), and no property proved
about this function depends on that order.  Autoincrement cluster ids from
`session.flush()` are positional.  The `cluster_map[label]` lookup cannot
miss for a non-noise label drawn from `labels`; the `none` arm of the
lookup models the unreachable `KeyError`. -/
def cluster_articles (articles : List (Article × Option ArticleAnalysis))
    (min_articles : Nat) (run_id : String)
    (dbscan : List (List ℚ) → List Int)
    (analyses : List ArticleAnalysis) : RunResult :=
  if articles.length < min_articles then
    ⟨.insufficient_data, articles.length, 0, 0, 0, [], []⟩
  else
    let ei := get_article_embeddings articles
    if ei.1.length < min_articles then
      ⟨.insufficient_embeddings, articles.length, ei.1.length, 0, 0, [], []⟩
    else
      let labels := dbscan ei.1
      let n_clusters := (labels.eraseDups).length -
        (if (-1 : Int) ∈ labels then 1 else 0)
      let cluster_map := run_cluster_map labels run_id
      let memberships := run_memberships labels ei.2 cluster_map
      let named := name_clusters cluster_map memberships analyses
      ⟨.success, articles.length, ei.1.length, n_clusters,
        labels.count (-1), named.map (fun p => p.2), memberships⟩

/-- Ascending insertion used to model the Python `sorted` over a set of ints. -/
def insertAsc (x : Int) : List Int → List Int
  | [] => [x]
  | y :: ys => if x ≤ y then x :: y :: ys else y :: insertAsc x ys

/-- `sorted(...)` on distinct integer labels. -/
def sortAsc (l : List Int) : List Int :=
  l.foldr insertAsc []

/-- One cluster in the view-mode result (the dict
`{"id": cluster_id, "articles": cluster_articles}` of clustering.py
lines 340-343). -/
structure ClusterView where
  id : Int
  articles : List Article
deriving DecidableEq

/-- The validation loop of `get_clusters` (clustering.py lines 252-291):
walk the analyses, look up each article, skip missing articles, skip
missing/unparsable/empty/non-list embeddings, fix the expected dimension at
the first valid embedding and skip records of any other dimension.  Returns
(`articles_data`, `valid_embeddings`) in encounter order. -/
def collectValidAux (articles : List Article) (expected : Option Nat) :
    List ArticleAnalysis → List Article × List (List ℚ)
  | [] => ([], [])
  | a :: rest =>
    match articles.find? (fun art => art.id = a.article_id) with
    | none => collectValidAux articles expected rest
    | some art =>
      match a.embedding with
      | none => collectValidAux articles expected rest
      | some emb =>
        if emb = [] then collectValidAux articles expected rest
        else
          match expected with
          | none =>
            let r := collectValidAux articles (some emb.length) rest
            (art :: r.1, emb :: r.2)
          | some d =>
            if emb.length ≠ d then collectValidAux articles (some d) rest
            else
              let r := collectValidAux articles (some d) rest
              (art :: r.1, emb :: r.2)

/-- `get_clusters` (clustering.py lines 229-352).  The cosine-similarity
matrix, the distance conversion and the DBSCAN fit with `min_samples=1` are
numeric external code collapsed into the `dbscan` oracle from the valid
embeddings to the label vector, so every property proved below holds for
every labelling the algorithm could emit.  `max(labels)` on an empty vector
raises in Python; the `none` arm is that unreachable case (a DBSCAN fit
returns one label per sample, and the sample list is non-empty on that
path).  The `enumerate`-then-index member selection is modelled as a zip,
identical whenever the label vector has one label per sample. -/
def get_clusters (analyses : List ArticleAnalysis) (articles : List Article)
    (dbscan : List (List ℚ) → List Int) : List ClusterView :=
  if analyses = [] then []
  else
    let va := collectValidAux articles none analyses
    if va.2 = [] then []
    else
      let labels0 := dbscan va.2
      match labels0.max? with
      | none => []
      | some m =>
        let labels := if m < 0 then List.replicate va.2.length (0 : Int) else labels0
        let ids := (sortAsc labels.dedup).filter (fun c => c ≠ -1)
        ids.map (fun cid =>
          ⟨cid, (labels.zip va.1).filterMap
            (fun p => if p.1 = cid then some p.2 else none)⟩)

/-- Member sentiment scores of a cluster (news_brief.py lines 209-218 and
103-112): look up each member analysis, keep its `sentiment_score`.  The
stored column is a float, so the `float(...)` cast in the source cannot
fail on it; the try/except there is a no-op under this data model. -/
def clusterSentiments (arts : List Article)
    (analyses : List ArticleAnalysis) : List ℚ :=
  arts.filterMap (fun art =>
    (analyses.find? (fun a => a.article_id = art.id)).map
      (fun a => a.sentiment_score))

/-- `sum(scores) / len(scores) if scores else 0`. -/
def avgOrZero (l : List ℚ) : ℚ :=
  if l = [] then 0 else l.sum / l.length

/-- The sentiment label chain of news_brief.py lines 118-122 and 268-272:
`"neutral"` unless the average exceeds 0.3 or falls below -0.3. -/
def sentimentLabel (q : ℚ) : String :=
  if q > 3 / 10 then "positive"
  else if q < -3 / 10 then "negative"
  else "neutral"

/-- Member topics of a cluster (news_brief.py lines 124-137 and 223-235):
per analysis, `json.loads` of the stored `topics` string (modelled by the
`loads` oracle yielding a list of strings on success), with the
comma-separated fallback on parse failure. -/
def clusterTopics (arts : List Article) (analyses : List ArticleAnalysis)
    (loadsList : String → Option (List String)) : List String :=
  arts.foldl (fun acc art =>
    match analyses.find? (fun a => a.article_id = art.id) with
    | none => acc
    | some a =>
      match loadsList a.topics with
      | some l => acc ++ l
      | none => acc ++ ((pySplit "," a.topics).map pyStrip).filter
          (fun t => t ≠ "")) []

/-- `Counter(all_topics).most_common(3)` keys (news_brief.py lines 140-141
and 238-239): count in first-insertion order, stable-sort descending by
count, take 3. -/
def counterMostCommon3 (l : List String) : List String :=
  ((sortByCountDesc (l.foldl bumpCount [])).take 3).map (fun p => p.1)

/-- Distinct source names of a cluster (news_brief.py lines 149 and 252):
feed names that exist and are non-empty, de-duplicated.  Python set
iteration order is unspecified; first-occurrence order is used here, and no
property proved below depends on it. -/
def clusterSources (arts : List Article) : List String :=
  ((arts.filterMap (fun art => art.feed_name)).filter
    (fun n => n ≠ "")).eraseDups

/-- The per-cluster digest rows fed to the insight prompt (news_brief.py
lines 255-262). -/
structure ClusterInfo where
  title : String
  summary : String
  sentiment : ℚ
  topics : List String
  sources : List String
  article_count : Nat

/-- Line post-processing of a successful insight response (news_brief.py
lines 307-328): split on newlines, strip, drop blanks, drop a two-character
bullet/number marker, collect; when that yields nothing, split on periods
keeping stripped fragments longer than 20 characters; cap at 5. -/
def processInsights (txt : String) : List String :=
  let markers := ["- ", "• ", "* ", "1. ", "2. ", "3. ", "4. ", "5. "]
  let step := (pySplit "\n" txt).foldl (fun acc line =>
    let line := pyStrip line
    if line = "" then acc
    else
      let line :=
        if markers.any (fun p => pyStartsWith line p) then pyStrip (pyDrop 2 line)
        else line
      if line ≠ "" then acc ++ [line] else acc) []
  let ins :=
    if step = [] then
      (pySplit "." txt).filterMap (fun i =>
        if 20 < (pyStrip i).length then some (pyStrip i ++ ".") else none)
    else step
  ins.take 5

/-- The `cluster_info` digest loop of `generate_insights` (news_brief.py
lines 200-262): skip clusters with no articles, and collect per-cluster
title, representative summary, average sentiment, top topics, sources and
member count. -/
def insightsClusterInfo (clusters : List ClusterView)
    (analyses : List ArticleAnalysis)
    (loadsList : String → Option (List String)) : List ClusterInfo :=
  clusters.filterMap (fun c =>
    if c.articles = [] then none
    else
      let avg := avgOrZero (clusterSentiments c.articles analyses)
      let top := counterMostCommon3 (clusterTopics c.articles analyses loadsList)
      let title := (c.articles.head?.map (fun a => a.title)).getD ""
      let summary :=
        match c.articles.head? with
        | some m =>
          match analyses.find? (fun a => a.article_id = m.id) with
          | some a => a.summary
          | none => ""
        | none => ""
      some ⟨title, summary, avg, top, clusterSources c.articles,
        c.articles.length⟩)

/-- The locally computed overall sentiment label of `generate_insights`
(news_brief.py lines 264-272): average the per-cluster average sentiments
and classify. -/
def insightsOverallLabel (clusters : List ClusterView)
    (analyses : List ArticleAnalysis)
    (loadsList : String → Option (List String)) : String :=
  sentimentLabel (avgOrZero
    ((insightsClusterInfo clusters analyses loadsList).map
      (fun c => c.sentiment)))

/-- `generate_insights` (news_brief.py lines 185-342).  The
generative-language call is the `service` oracle: `some txt` is a response
with text `txt`, `none` is the call raising, which lands in the
`except` at line 330 and yields the three fixed fallback sentences built
from the locally computed overall sentiment label.  The source computes the
digest before the call; the digest is pure, so computing it inside the
branch that consumes it is observationally identical. -/
def generate_insights (clusters : List ClusterView)
    (analyses : List ArticleAnalysis)
    (loadsList : String → Option (List String))
    (service : Option String) : List String :=
  if clusters = [] then []
  else
    match service with
    | some txt => processInsights txt
    | none =>
      ["Today\x27s news coverage shows a mix of domestic and international stories.",
       "The overall tone of today\x27s coverage is " ++
         insightsOverallLabel clusters analyses loadsList ++ ".",
       "Multiple sources are covering the same major events, indicating widespread interest."]

/-- Sort key truthiness of news_brief.py line 86: a missing `published_at`
sorts as `datetime.min`, below every real timestamp. -/
def pubKeyLt (x y : Option Int) : Bool :=
  match x, y with
  | none, none => false
  | none, some _ => true
  | some _, none => false
  | some a, some b => a < b

/-- Stable descending insertion by publication date for
`sorted(..., reverse=True)` (news_brief.py lines 84-88). -/
def insertPubDesc (x : Article) : List Article → List Article
  | [] => [x]
  | y :: ys =>
    if pubKeyLt y.published_at x.published_at then x :: y :: ys
    else y :: insertPubDesc x ys

/-- `sorted(cluster["articles"], key=published_at-or-min, reverse=True)`. -/
def sortPubDesc (l : List Article) : List Article :=
  l.foldl (fun acc a => insertPubDesc a acc) []

/-- Python `str.capitalize()`: first character upper-cased, rest lowered. -/
def pyCapitalize (s : String) : String :=
  match s.toList with
  | [] => ""
  | c :: r => String.mk (c.toUpper :: r.map Char.toLower)

/-- One "Top Stories" section of the brief (news_brief.py lines 78-155),
as the list of strings the source appends: skip empty clusters, pick the
most recently published member as representative, skip it if it has no
analysis, then heading, sentiment/topics subheading, summary, optional
sources footer, and the inter-section divider for every position but the
last. -/
def clusterSection (analyses : List ArticleAnalysis)
    (loadsList : String → Option (List String)) (total : Nat)
    (p : Nat × ClusterView) : List String :=
  if p.2.articles = [] then []
  else
    match sortPubDesc p.2.articles with
    | [] => []
    | main :: _ =>
      match analyses.find? (fun a => a.article_id = main.id) with
      | none => []
      | some main_analysis =>
        let lbl := sentimentLabel
          (avgOrZero (clusterSentiments p.2.articles analyses))
        let top := counterMostCommon3
          (clusterTopics p.2.articles analyses loadsList)
        let sources := clusterSources p.2.articles
        ["### " ++ main.title ++ "\n\n",
         "*" ++ pyCapitalize lbl ++ " sentiment • " ++
           (if top ≠ [] then joinSep ", " top
            else "No topics identified") ++ "*\n\n",
         main_analysis.summary ++ "\n\n"] ++
        (if sources ≠ [] then
          ["*Sources: " ++ joinSep ", " sources ++ "*\n\n"]
         else []) ++
        (if p.1 < total - 1 then ["---\n\n"] else [])

/-- The markdown pieces `generate_news_brief` (news_brief.py lines 31-172)
concatenates into the brief document, in append order: title header,
optional "Key Insights" bulleted section, "Top Stories" header, and the
per-cluster sections.  The document string is the concatenation of these
pieces; the `NewsBrief` row and the file write persist that string
unchanged. -/
def generate_news_brief_pieces (analyses : List ArticleAnalysis)
    (articles : List Article) (dbscan : List (List ℚ) → List Int)
    (loadsList : String → Option (List String))
    (service : Option String) (date_str : String) : List String :=
  let clusters := get_clusters analyses articles dbscan
  let insights := generate_insights clusters analyses loadsList service
  ["# Daily News Brief\n\n**" ++ date_str ++ "**\n\n"] ++
  (if insights ≠ [] then
    ["## Key Insights\n\n"] ++ insights.map (fun i => "- " ++ i ++ "\n") ++
      ["\n"]
   else []) ++
  ["## Top Stories\n\n"] ++
  (clusters.enum.map (clusterSection analyses loadsList clusters.length)).flatten

/-- Case-insensitive character comparison for `re.IGNORECASE`. -/
def charCI (a b : Char) : Bool :=
  a.toLower = b.toLower

/-- Consume one alternation label case-insensitively; returns the remaining
text on a match. -/
def eatLabelCI : List Char → List Char → Option (List Char)
  | [], rest => some rest
  | _ :: _, [] => none
  | l :: ls, c :: cs => if charCI l c then eatLabelCI ls cs else none

/-- The `\s*:\s*(.*)` tail of the field patterns in analyzer.py lines
211-214: greedy whitespace (newlines included), a colon, greedy whitespace,
then a capture running to the end of the line — without `re.DOTALL`, `.`
stops at a newline.  The capture group can match the empty string, so the
greedy runs never backtrack. -/
def afterLabel (cs : List Char) : Option (List Char) :=
  match cs.dropWhile (fun c => isPySpace c) with
  | ':' :: r =>
    some ((r.dropWhile (fun c => isPySpace c)).takeWhile (fun c => c ≠ '\n'))
  | _ => none

/-- Alternation `(?:A|B|...)` followed by the field tail, attempted
left-to-right at one position. -/
def tryLabels (labels : List String) (cs : List Char) : Option (List Char) :=
  match labels with
  | [] => none
  | l :: ls =>
    match eatLabelCI l.toList cs with
    | some rest =>
      match afterLabel rest with
      | some cap => some cap
      | none => tryLabels ls cs
    | none => tryLabels ls cs

/-- `re.search` of a field pattern `(?:A|B|...)\s*:\s*(.*)` with
`re.IGNORECASE | re.MULTILINE`: the leftmost position where the pattern
matches, returning the content of the capture group. -/
def searchField (labels : List String) : List Char → Option (List Char)
  | [] => none
  | c :: rest =>
    match tryLabels labels (c :: rest) with
    | some cap => some cap
    | none => searchField labels rest

/-- Python `.strip` on the two quote characters: shave every leading/trailing single or
double quote. -/
def stripQuotes (s : String) : String :=
  String.mk (((s.toList.dropWhile
    (fun c => c = '\x27' ∨ c = '"')).reverse.dropWhile
    (fun c => c = '\x27' ∨ c = '"')).reverse)

/-- Python `.strip` on the two square-bracket characters: shave every leading/trailing square bracket. -/
def stripBrackets (s : String) : String :=
  String.mk (((s.toList.dropWhile
    (fun c => c = '[' ∨ c = ']')).reverse.dropWhile
    (fun c => c = '[' ∨ c = ']')).reverse)

/-- The bullet-scanning loop of `extract_list_field` (analyzer.py lines
313-320): strip each piece, collect the tail of every piece starting with a
dash/asterisk/bullet, and break at the first non-empty non-bullet piece
after a bullet has been seen.  The `found_bullets` flag of the source is
`true` exactly when the accumulator is non-empty, since the two are updated
together. -/
def bulletScan : List String → Bool → List String → List String
  | [], _, acc => acc
  | item :: rest, found, acc =>
    let it := pyStrip item
    if pyStartsWith it "-" ∨ pyStartsWith it "*" ∨ pyStartsWith it "•" then
      bulletScan rest true (acc ++ [pyStrip (pyDrop 1 it)])
    else if found ∧ it ≠ "" then acc
    else bulletScan rest found acc

/-- `extract_list_field` (analyzer.py lines 305-336) for the field patterns
of the fallback stage.  `labels` is the alternation of the pattern (for
topics: `["topics", "Topics"]`), `loads` is the `json.loads` oracle used by
the bracketed branch.  Faithful to the source: the captured value is
stripped, split on the LITERAL two-character sequence backslash-n (the
source writes a backslash-n string literal, not a newline), scanned for bullet runs; with no
bullets and a non-empty value, a bracketed value goes through `json.loads`
(kept only when it parses to a list, then stringified; on a parse error
brackets are shaved and the value comma-split with quotes stripped), and an
unbracketed value is comma-split with quotes stripped; the result is capped
to 5 items, an empty result giving back `default_value`. -/
def extract_list_field (labels : List String) (loads : String → Option PyVal)
    (text : String) (default_value : List String) : List String :=
  match searchField labels text.toList with
  | none => default_value
  | some cap =>
    let value_str := pyStrip (String.mk cap)
    let potential_items := pySplit "\\n" value_str
    let items := bulletScan potential_items false []
    let list_items :=
      if items = [] ∧ value_str ≠ "" then
        if pyStartsWith value_str "[" ∧ pyEndsWith value_str "]" then
          match loads value_str with
          | some (.list l) => l.map pyStr
          | some _ => items
          | none =>
            (pySplit "," (stripBrackets value_str)).filterMap (fun it =>
              if pyStrip it ≠ "" then some (stripQuotes (pyStrip it)) else none)
        else
          (pySplit "," value_str).filterMap (fun it =>
            if pyStrip it ≠ "" then some (stripQuotes (pyStrip it)) else none)
      else items
    if list_items ≠ [] then list_items.take 5 else default_value

/-- Claim C1: calling analyze on an article that already has an analysis
record is a success-no-op: when some record for `article.id` exists,
`analyze_article` returns `True`, the record table is unchanged (nothing
written, nothing modified), and the article row is untouched. -/
theorem analyze_article_existing_noop (article : Article)
    (db : List ArticleAnalysis)
    (ac : String → String → Option ValidatedResult)
    (ge : String → Option (List ℚ))
    (h : ∃ r ∈ db, r.article_id = article.id) :
    analyze_article article db ac ge = ⟨true, db, article⟩ := by
  obtain ⟨r, hr, hid⟩ := h
  have hs : (db.find? (fun a => a.article_id = article.id)).isSome := by
    rw [List.find?_isSome]
    exact ⟨r, hr, by simp [hid]⟩
  unfold analyze_article
  cases hfind : db.find? (fun a => a.article_id = article.id) with
  | none => rw [hfind] at hs; simp at hs
  | some x => simp

/-- Witness for C1: a concrete store holding a record for article 7; the
call returns `True` with the store unchanged. -/
theorem analyze_article_existing_noop_witness :
    analyze_article ⟨7, "t", some "c", none, none, none, true⟩
        [⟨7, 0, "[]", "[]", "s", some [1]⟩]
        (fun _ _ => none) (fun _ => none) =
      ⟨true, [⟨7, 0, "[]", "[]", "s", some [1]⟩],
        ⟨7, "t", some "c", none, none, none, true⟩⟩ :=
  analyze_article_existing_noop _ _ _ _
    ⟨⟨7, 0, "[]", "[]", "s", some [1]⟩, by simp, rfl⟩

/-- Claim C2: whenever the structured parse stage accepts a response and
`analyze_content` returns a validated result, that result has at most 5
topics, and every topic and entity is the stringification of some parsed
value (the `sentiment_score` field has the float type `ℚ` by
construction). -/
theorem analyze_content_validate_caps (j : PyVal) (r : ValidatedResult)
    (h : analyze_content_validate j = some r) :
    r.topics.length ≤ 5 ∧ (∀ t ∈ r.topics, ∃ v, t = pyStr v) ∧
      ∀ e ∈ r.entities, ∃ v, e = pyStr v := by
  cases j with
  | dict kvs =>
    simp only [analyze_content_validate] at h
    cases hf : pyFloat (dictGet kvs "sentiment_score" (.float 0)) with
    | none => rw [hf] at h; simp at h
    | some q =>
      rw [hf] at h
      simp only [Option.some.injEq] at h
      subst h
      refine ⟨?_, ?_, ?_⟩
      · cases ht : dictGet kvs "topics" (.list []) <;>
          simp [ht, List.length_take]
      · intro t htm
        cases ht : dictGet kvs "topics" (.list []) <;> simp [ht] at htm
        have h2 := List.Sublist.mem htm (List.take_sublist 5 _)
        obtain ⟨v, _, hv⟩ := List.mem_map.mp h2
        exact ⟨v, hv.symm⟩
      · intro e hem
        cases he : dictGet kvs "entities" (.list []) <;> simp [he] at hem
        obtain ⟨v, _, hv⟩ := hem
        exact ⟨v, hv.symm⟩
  | str s => simp [analyze_content_validate] at h
  | int n => simp [analyze_content_validate] at h
  | float q => simp [analyze_content_validate] at h
  | bool b => simp [analyze_content_validate] at h
  | pynone => simp [analyze_content_validate] at h
  | list xs => simp [analyze_content_validate] at h

/-- Witness for C2: a response with six topics is validated down to five
stringified topics. -/
theorem analyze_content_validate_caps_witness :
    (analyze_content_validate (.dict [("summary", .str "s"),
        ("sentiment_score", .float 1),
        ("topics", .list [.str "a", .str "b", .str "c", .str "d", .str "e",
          .str "f"]),
        ("entities", .list [.int 3])]) =
      some ⟨"s", 1, ["a", "b", "c", "d", "e"], ["3"]⟩) ∧
      (["a", "b", "c", "d", "e"] : List String).length ≤ 5 := by
  refine ⟨by decide, ?_⟩
  exact (analyze_content_validate_caps
    (.dict [("summary", .str "s"), ("sentiment_score", .float 1),
      ("topics", .list [.str "a", .str "b", .str "c", .str "d", .str "e",
        .str "f"]),
      ("entities", .list [.int 3])])
    ⟨"s", 1, ["a", "b", "c", "d", "e"], ["3"]⟩ (by decide)).1

/-- Claim C7 counterexample: the structured parse accepts this response, its
`sentiment_score` value cannot be cast to a float, and `analyze_content`
returns `None` — the result is NOT returned with the 0.0 default. -/
theorem analyze_content_validate_uncastable_fails :
    analyze_content_validate (.dict [("summary", .str "s"),
      ("sentiment_score", .str "very positive"), ("topics", .list []),
      ("entities", .list [])]) = none := by decide

/-- Claim C7 as amended: after a successful structured parse, the 0.0
default applies only when the `sentiment_score` key is absent; when the key
is present with a value `float(...)` rejects, the cast error escapes the
JSON-decode handler and `analyze_content` returns `None`, failing the
analysis of the article. -/
theorem analyze_content_validate_sentiment (kvs : List (String × PyVal)) :
    ((∀ p ∈ kvs, p.1 ≠ "sentiment_score") →
      ∃ r, analyze_content_validate (.dict kvs) = some r ∧
        r.sentiment_score = 0) ∧
    (pyFloat (dictGet kvs "sentiment_score" (.float 0)) = none →
      analyze_content_validate (.dict kvs) = none) := by
  constructor
  · intro habs
    have hfind : (kvs.reverse.find? (fun p => p.1 = "sentiment_score")) = none := by
      rw [List.find?_eq_none]
      intro p hp
      simpa using habs p (List.mem_reverse.mp hp)
    have hdg : dictGet kvs "sentiment_score" (.float 0) = .float 0 := by
      unfold dictGet
      rw [hfind]
    refine ⟨_, by simp only [analyze_content_validate, hdg]; rfl, rfl⟩
  · intro hnone
    simp only [analyze_content_validate, hnone]

/-- Witness for the amended C7: with the key absent the result carries
score 0; with an uncastable value the analysis fails. -/
theorem analyze_content_validate_sentiment_witness :
    (∃ r, analyze_content_validate (.dict [("summary", .str "ok")]) =
        some r ∧ r.sentiment_score = 0) ∧
    analyze_content_validate (.dict [("summary", .str "ok"),
      ("sentiment_score", .str "very positive")]) = none :=
  ⟨(analyze_content_validate_sentiment [("summary", .str "ok")]).1
      (by decide),
   (analyze_content_validate_sentiment [("summary", .str "ok"),
      ("sentiment_score", .str "very positive")]).2 (by decide)⟩

/-- Claim C8, evaluated at the failing input: a single-member cluster whose
member stores `topics` exactly as analyzer.py writes it
(`json.dumps(["AI", "Policy"])`).  The naming pass comma-splits the JSON
text instead of parsing it, so the name keeps the bracket and quote
characters instead of being the topic strings joined by " / ". -/
theorem name_cluster_mangles_json_topics :
    (name_cluster 0 ⟨0, "Cluster 0", "", "r"⟩ [⟨0, 1, 1⟩]
        [⟨1, 0, "[\"AI\", \"Policy\"]", "[]", "s", some [1]⟩]).name =
      "[\"AI\" / \"Policy\"]" ∧
    (name_cluster 0 ⟨0, "Cluster 0", "", "r"⟩ [⟨0, 1, 1⟩]
        [⟨1, 0, "[\"AI\", \"Policy\"]", "[]", "s", some [1]⟩]).description =
      "Single article on [\"AI\"" ∧
    (name_cluster 0 ⟨0, "Cluster 0", "", "r"⟩ [⟨0, 1, 1⟩]
        [⟨1, 0, "[\"AI\", \"Policy\"]", "[]", "s", some [1]⟩]).name ≠
      "AI / Policy" := by decide

/-- Claim C9 counterexample: on the raw text with real newlines,
`extract_list_field` does not produce the three-element list the claim
states. -/
theorem extract_list_field_newline_counterexample :
    extract_list_field ["topics", "Topics"] (fun _ => none)
      "Topics: - AI\n- Policy\n- Markets" [] ≠
      ["AI", "Policy", "Markets"] := by decide

/-- Claim C9 as amended: with real newline characters the capture group
stops at the end of the `Topics:` line and only `["AI"]` is extracted; the
full three-element list is produced exactly when the line breaks are the
literal two-character backslash-n sequences the bullet splitter looks
for. -/
theorem extract_list_field_first_line_only :
    extract_list_field ["topics", "Topics"] (fun _ => none)
      "Topics: - AI\n- Policy\n- Markets" [] = ["AI"] ∧
    extract_list_field ["topics", "Topics"] (fun _ => none)
      "Topics: - AI\\n- Policy\\n- Markets" [] =
      ["AI", "Policy", "Markets"] := by decide

/-- Every row the membership loop emits carries the placeholder score 1. -/
theorem run_memberships_score_eq_one (labels : List Int) (ids : List Nat)
    (cm : List (Int × Cluster)) :
    ∀ m ∈ run_memberships labels ids cm, m.similarity_score = 1 := by
  intro m hm
  unfold run_memberships at hm
  obtain ⟨p, _, hf⟩ := List.mem_filterMap.mp hm
  by_cases hn : p.1 = -1
  · simp [hn] at hf
  · simp only [hn, if_false] at hf
    cases hq : cm.find? (fun q => q.1 = p.1) with
    | none => rw [hq] at hf; simp at hf
    | some q =>
      rw [hq] at hf
      simp only [Option.some.injEq] at hf
      rw [← hf]

/-- Claim C3: the persisting-mode preconditions.  With fewer than
`min_articles` analyzed articles the run returns the structured
`insufficient_data` status; with enough articles but fewer than
`min_articles` loadable embeddings it returns `insufficient_embeddings`;
in both cases it returns normally (the model is a total function) and
commits no `Cluster` and no `ClusterMembership` rows. -/
theorem cluster_articles_preconditions
    (articles : List (Article × Option ArticleAnalysis))
    (min_articles : Nat) (run_id : String)
    (dbscan : List (List ℚ) → List Int) (analyses : List ArticleAnalysis) :
    (articles.length < min_articles →
      cluster_articles articles min_articles run_id dbscan analyses =
        ⟨.insufficient_data, articles.length, 0, 0, 0, [], []⟩) ∧
    (¬ articles.length < min_articles →
      (get_article_embeddings articles).1.length < min_articles →
      cluster_articles articles min_articles run_id dbscan analyses =
        ⟨.insufficient_embeddings, articles.length,
          (get_article_embeddings articles).1.length, 0, 0, [], []⟩) := by
  constructor
  · intro h
    simp [cluster_articles, h]
  · intro h1 h2
    simp [cluster_articles, h1, h2]

/-- Witness for C3: an empty store trips `insufficient_data`; one analyzed
article with no loadable embedding trips `insufficient_embeddings`. -/
theorem cluster_articles_preconditions_witness :
    (cluster_articles [] 1 "r" (fun _ => []) [] =
      ⟨.insufficient_data, 0, 0, 0, 0, [], []⟩) ∧
    (cluster_articles [(⟨1, "t", none, none, none, none, true⟩, none)] 1 "r"
        (fun _ => []) [] =
      ⟨.insufficient_embeddings, 1, 0, 0, 0, [], []⟩) :=
  ⟨(cluster_articles_preconditions [] 1 "r" (fun _ => []) []).1 (by decide),
   (cluster_articles_preconditions
      [(⟨1, "t", none, none, none, none, true⟩, none)] 1 "r"
      (fun _ => []) []).2 (by decide) (by decide)⟩

/-- Claim C10: every `ClusterMembership` row a persisting run writes has
`similarity_score` equal to the constant 1.0 (clustering.py line 137), for
every input and every labelling the density algorithm could produce — the
stored score carries no information about actual embedding similarity. -/
theorem cluster_articles_similarity_constant
    (articles : List (Article × Option ArticleAnalysis))
    (min_articles : Nat) (run_id : String)
    (dbscan : List (List ℚ) → List Int) (analyses : List ArticleAnalysis) :
    ∀ m ∈ (cluster_articles articles min_articles run_id dbscan
      analyses).memberships, m.similarity_score = 1 := by
  intro m hm
  unfold cluster_articles at hm
  by_cases h1 : articles.length < min_articles
  · simp [h1] at hm
  · by_cases h2 : (get_article_embeddings articles).1.length < min_articles
    · simp [h1, h2] at hm
    · simp only [h1, h2, if_false] at hm
      exact run_memberships_score_eq_one _ _ _ m hm

/-- Witness for C10: a concrete one-article run writes exactly one
membership row, and its score is 1. -/
theorem cluster_articles_similarity_constant_witness :
    ((cluster_articles [(⟨1, "t", none, none, none, none, true⟩,
        some ⟨1, 0, "[]", "[]", "s", some [1]⟩)] 1 "r" (fun _ => [0])
        []).memberships = [⟨0, 1, 1⟩]) ∧
    (⟨0, 1, 1⟩ : ClusterMembership).similarity_score = 1 :=
  ⟨by decide,
   cluster_articles_similarity_constant
     [(⟨1, "t", none, none, none, none, true⟩,
       some ⟨1, 0, "[]", "[]", "s", some [1]⟩)] 1 "r" (fun _ => [0]) []
     ⟨0, 1, 1⟩ (by decide)⟩

/-- Once the expected dimension is fixed, every embedding the view-mode
validation loop keeps has exactly that dimension. -/
theorem collectValidAux_fixed_dim (articles : List Article) :
    ∀ (analyses : List ArticleAnalysis) (d : Nat),
      ∀ e ∈ (collectValidAux articles (some d) analyses).2, e.length = d := by
  intro analyses
  induction analyses with
  | nil => intro d e he; simp [collectValidAux] at he
  | cons a rest ih =>
    intro d e he
    simp only [collectValidAux] at he
    cases hfa : articles.find? (fun art => art.id = a.article_id) with
    | none => simp only [hfa] at he; exact ih d e he
    | some art =>
      simp only [hfa] at he
      cases hemb : a.embedding with
      | none => simp only [hemb] at he; exact ih d e he
      | some emb =>
        simp only [hemb] at he
        by_cases hz : emb = []
        · rw [if_pos hz] at he; exact ih d e he
        · rw [if_neg hz] at he
          by_cases hd : emb.length ≠ d
          · rw [if_pos hd] at he; exact ih d e he
          · rw [if_neg hd] at he
            simp only [List.mem_cons] at he
            rcases he with rfl | he
            · exact not_not.mp hd
            · exact ih d e he

/-- Claim C5: view-mode dimension consistency.  Every embedding the
`get_clusters` validation loop keeps — and hence every embedding handed to
the clustering — has the dimension of the first valid embedding
encountered; records of any other dimension are skipped. -/
theorem get_clusters_dimension_consistency (articles : List Article) :
    ∀ (analyses : List ArticleAnalysis) (f : List ℚ),
      (collectValidAux articles none analyses).2.head? = some f →
      ∀ e ∈ (collectValidAux articles none analyses).2,
        e.length = f.length := by
  intro analyses
  induction analyses with
  | nil => intro f hf; simp [collectValidAux] at hf
  | cons a rest ih =>
    intro f hf e he
    simp only [collectValidAux] at hf he
    cases hfa : articles.find? (fun art => art.id = a.article_id) with
    | none => simp only [hfa] at hf he; exact ih f hf e he
    | some art =>
      simp only [hfa] at hf he
      cases hemb : a.embedding with
      | none => simp only [hemb] at hf he; exact ih f hf e he
      | some emb =>
        simp only [hemb] at hf he
        by_cases hz : emb = []
        · rw [if_pos hz] at hf he; exact ih f hf e he
        · rw [if_neg hz] at hf he
          simp only [List.head?_cons, Option.some.injEq] at hf
          simp only [List.mem_cons] at he
          subst hf
          rcases he with rfl | he
          · rfl
          · exact collectValidAux_fixed_dim articles rest emb.length e he

set_option maxRecDepth 40000 in
/-- Witness for C5: dimensions 768, 768, 512 in encounter order; only the
two 768-dimensional embeddings survive, and each kept embedding has
dimension 768. -/
theorem get_clusters_dimension_consistency_witness :
    ((collectValidAux
        [⟨1, "a", none, none, none, none, true⟩,
         ⟨2, "b", none, none, none, none, true⟩,
         ⟨3, "c", none, none, none, none, true⟩] none
        [⟨1, 0, "[]", "[]", "s", some (List.replicate 768 (1 : ℚ))⟩,
         ⟨2, 0, "[]", "[]", "s", some (List.replicate 768 (2 : ℚ))⟩,
         ⟨3, 0, "[]", "[]", "s", some (List.replicate 512 (3 : ℚ))⟩]).2 =
      [List.replicate 768 (1 : ℚ), List.replicate 768 (2 : ℚ)]) ∧
    ∀ e ∈ (collectValidAux
        [⟨1, "a", none, none, none, none, true⟩,
         ⟨2, "b", none, none, none, none, true⟩,
         ⟨3, "c", none, none, none, none, true⟩] none
        [⟨1, 0, "[]", "[]", "s", some (List.replicate 768 (1 : ℚ))⟩,
         ⟨2, 0, "[]", "[]", "s", some (List.replicate 768 (2 : ℚ))⟩,
         ⟨3, 0, "[]", "[]", "s", some (List.replicate 512 (3 : ℚ))⟩]).2,
      e.length = 768 := by
  refine ⟨by decide, fun e he => ?_⟩
  have h := get_clusters_dimension_consistency
    [⟨1, "a", none, none, none, none, true⟩,
     ⟨2, "b", none, none, none, none, true⟩,
     ⟨3, "c", none, none, none, none, true⟩]
    [⟨1, 0, "[]", "[]", "s", some (List.replicate 768 (1 : ℚ))⟩,
     ⟨2, 0, "[]", "[]", "s", some (List.replicate 768 (2 : ℚ))⟩,
     ⟨3, 0, "[]", "[]", "s", some (List.replicate 512 (3 : ℚ))⟩]
    (List.replicate 768 (1 : ℚ)) (by decide) e he
  simpa using h

/-- The view-mode validation loop keeps articles and embeddings in
lockstep. -/
theorem collectValidAux_lengths (articles : List Article) :
    ∀ (analyses : List ArticleAnalysis) (expected : Option Nat),
      (collectValidAux articles expected analyses).1.length =
        (collectValidAux articles expected analyses).2.length := by
  intro analyses
  induction analyses with
  | nil => intro expected; simp [collectValidAux]
  | cons a rest ih =>
    intro expected
    simp only [collectValidAux]
    cases hfa : articles.find? (fun art => art.id = a.article_id) with
    | none => simp only [hfa]; exact ih expected
    | some art =>
      simp only [hfa]
      cases hemb : a.embedding with
      | none => simp only [hemb]; exact ih expected
      | some emb =>
        simp only [hemb]
        by_cases hz : emb = []
        · rw [if_pos hz]; exact ih expected
        · rw [if_neg hz]
          cases expected with
          | none => simp [ih (some emb.length)]
          | some d =>
            dsimp only
            by_cases hd : emb.length ≠ d
            · rw [if_pos hd]; exact ih (some d)
            · rw [if_neg hd]; simp [ih (some d)]

/-- Membership through the ascending insertion. -/
theorem mem_insertAsc {x a : Int} : ∀ {l : List Int},
    x ∈ insertAsc a l ↔ x = a ∨ x ∈ l := by
  intro l
  induction l with
  | nil => simp [insertAsc]
  | cons y ys ih =>
    simp only [insertAsc]
    by_cases h : a ≤ y
    · simp [h]
    · rw [if_neg h]
      simp only [List.mem_cons, ih]
      tauto

/-- Sorting the label set preserves membership. -/
theorem mem_sortAsc {x : Int} : ∀ {l : List Int}, x ∈ sortAsc l ↔ x ∈ l := by
  intro l
  induction l with
  | nil => simp [sortAsc]
  | cons a l ih =>
    simp only [sortAsc, List.foldr_cons] at *
    rw [mem_insertAsc, ih, List.mem_cons]

/-- `dedup` of a constant label vector. -/
theorem dedup_replicate_zero : ∀ n : Nat,
    (List.replicate (n + 1) (0 : Int)).dedup = [0] := by
  intro n
  induction n with
  | zero => simp
  | succ k ih =>
    rw [List.replicate_succ,
      List.dedup_cons_of_mem (by simp [List.mem_replicate]), ih]

/-- Zipping a constant label vector of matching length pairs every article
with that label. -/
theorem zip_replicate_label (c : Int) : ∀ l : List Article,
    (List.replicate l.length c).zip l = l.map (fun a => (c, a)) := by
  intro l
  induction l with
  | nil => rfl
  | cons a t ih => simp [List.replicate_succ, ih]

/-- Claim C4: view-mode clustering is non-empty on non-empty valid input.
For every store whose validation loop keeps at least one embedding, and for
every labelling of those embeddings the density algorithm can emit (one
label per sample), `get_clusters` returns at least one cluster; and when
the algorithm labels every point as noise, the result is exactly one
synthetic cluster with id 0 holding every kept article. -/
theorem get_clusters_view_nonempty (analyses : List ArticleAnalysis)
    (articles : List Article) (dbscan : List (List ℚ) → List Int)
    (hne : (collectValidAux articles none analyses).2 ≠ [])
    (hlen : (dbscan (collectValidAux articles none analyses).2).length =
      (collectValidAux articles none analyses).2.length) :
    get_clusters analyses articles dbscan ≠ [] ∧
    ((∀ l ∈ dbscan (collectValidAux articles none analyses).2, l = -1) →
      get_clusters analyses articles dbscan =
        [⟨0, (collectValidAux articles none analyses).1⟩]) := by
  have hanal : analyses ≠ [] := by
    intro h
    subst h
    exact hne rfl
  simp only [get_clusters, if_neg hanal, if_neg hne]
  cases hmax : (dbscan (collectValidAux articles none analyses).2).max? with
  | none =>
    rw [List.max?_eq_none_iff] at hmax
    rw [hmax] at hlen
    exact absurd (List.length_eq_zero.mp hlen.symm) hne
  | some m =>
    dsimp only
    by_cases hm : m < 0
    · rw [if_pos hm]
      obtain ⟨k, hk⟩ : ∃ k,
          (collectValidAux articles none analyses).2.length = k + 1 := by
        cases h : (collectValidAux articles none analyses).2 with
        | nil => exact absurd h hne
        | cons x xs => exact ⟨xs.length, by simp [h]⟩
      have hlen1 : (collectValidAux articles none analyses).1.length = k + 1 := by
        rw [collectValidAux_lengths, hk]
      rw [hk, dedup_replicate_zero]
      rw [(by decide : (sortAsc ([0] : List Int)).filter
        (fun c => c ≠ -1) = [0])]
      rw [← hlen1, zip_replicate_label]
      constructor
      · simp
      · intro _
        simp [List.filterMap_map, Function.comp_def, List.filterMap_some]
    · rw [if_neg hm]
      have hmem : m ∈ dbscan (collectValidAux articles none analyses).2 :=
        List.max?_mem max_choice hmax
      have hm0 : m ≠ -1 := by omega
      have hid : m ∈ (sortAsc
          (dbscan (collectValidAux articles none analyses).2).dedup).filter
          (fun c => c ≠ -1) := by
        rw [List.mem_filter]
        exact ⟨mem_sortAsc.mpr (List.mem_dedup.mpr hmem), by simpa using hm0⟩
      constructor
      · intro hmap
        rw [List.map_eq_nil_iff] at hmap
        rw [hmap] at hid
        exact absurd hid (List.not_mem_nil m)
      · intro hall
        exact absurd (hall m hmem) hm0

/-- Witness for C4: one valid embedding, a labelling that marks the single
point as noise; the result is the single synthetic cluster 0 holding the
article, hence non-empty. -/
theorem get_clusters_view_nonempty_witness :
    get_clusters [⟨1, 0, "[]", "[]", "s", some [1]⟩]
        [⟨1, "t", none, none, none, none, true⟩] (fun _ => [-1]) =
      [⟨0, [⟨1, "t", none, none, none, none, true⟩]⟩] ∧
    get_clusters [⟨1, 0, "[]", "[]", "s", some [1]⟩]
        [⟨1, "t", none, none, none, none, true⟩] (fun _ => [-1]) ≠ [] :=
  ⟨(get_clusters_view_nonempty [⟨1, 0, "[]", "[]", "s", some [1]⟩]
      [⟨1, "t", none, none, none, none, true⟩] (fun _ => [-1])
      (by decide) (by decide)).2 (by decide),
   (get_clusters_view_nonempty [⟨1, 0, "[]", "[]", "s", some [1]⟩]
      [⟨1, "t", none, none, none, none, true⟩] (fun _ => [-1])
      (by decide) (by decide)).1⟩

/-- `sentimentLabel` only ever produces one of the three labels. -/
theorem sentimentLabel_mem (q : ℚ) :
    sentimentLabel q ∈ (["positive", "negative", "neutral"] : List String) := by
  unfold sentimentLabel
  split_ifs <;> simp

/-- Claim C6: when the generative-language call raises during insight
generation (and insight generation was reached with a non-empty cluster
list), `generate_insights` returns exactly the three fixed generic
sentences, the second of which carries the locally computed overall
sentiment label (one of positive/negative/neutral), and the composed brief
document contains each of them as a bullet line. -/
theorem generate_insights_fallback (analyses : List ArticleAnalysis)
    (articles : List Article) (dbscan : List (List ℚ) → List Int)
    (loadsList : String → Option (List String)) (date_str : String)
    (hcl : get_clusters analyses articles dbscan ≠ []) :
    ∃ lbl ∈ (["positive", "negative", "neutral"] : List String),
      generate_insights (get_clusters analyses articles dbscan) analyses
          loadsList none =
        ["Today\x27s news coverage shows a mix of domestic and international stories.",
         "The overall tone of today\x27s coverage is " ++ lbl ++ ".",
         "Multiple sources are covering the same major events, indicating widespread interest."] ∧
      (generate_insights (get_clusters analyses articles dbscan) analyses
          loadsList none).length = 3 ∧
      ∀ i ∈ generate_insights (get_clusters analyses articles dbscan)
          analyses loadsList none,
        ("- " ++ i ++ "\n") ∈ generate_news_brief_pieces analyses articles
          dbscan loadsList none date_str := by
  have hins : generate_insights (get_clusters analyses articles dbscan)
      analyses loadsList none =
      ["Today\x27s news coverage shows a mix of domestic and international stories.",
       "The overall tone of today\x27s coverage is " ++
         insightsOverallLabel (get_clusters analyses articles dbscan)
           analyses loadsList ++ ".",
       "Multiple sources are covering the same major events, indicating widespread interest."] := by
    unfold generate_insights
    rw [if_neg hcl]
  refine ⟨insightsOverallLabel (get_clusters analyses articles dbscan)
      analyses loadsList, ?_, hins, by rw [hins]; rfl, ?_⟩
  · unfold insightsOverallLabel
    exact sentimentLabel_mem _
  · intro i hi
    unfold generate_news_brief_pieces
    dsimp only
    rw [hins, if_pos (by simp)]
    have hbul : ("- " ++ i ++ "\n") ∈
        (generate_insights (get_clusters analyses articles dbscan) analyses
          loadsList none).map (fun j => "- " ++ j ++ "\n") :=
      List.mem_map_of_mem _ hi
    rw [hins] at hbul
    simp only [List.mem_append, List.append_assoc, List.mem_cons]
    tauto

/-- Witness for C6: a concrete store with one cluster; the service call
raises and the brief pieces carry the three fallback bullets. -/
theorem generate_insights_fallback_witness :
    ∃ lbl ∈ (["positive", "negative", "neutral"] : List String),
      generate_insights
          (get_clusters [⟨1, 0, "[]", "[]", "s", some [1]⟩]
            [⟨1, "t", none, none, none, none, true⟩] (fun _ => [0]))
          [⟨1, 0, "[]", "[]", "s", some [1]⟩] (fun _ => none) none =
        ["Today\x27s news coverage shows a mix of domestic and international stories.",
         "The overall tone of today\x27s coverage is " ++ lbl ++ ".",
         "Multiple sources are covering the same major events, indicating widespread interest."] ∧
      (generate_insights
          (get_clusters [⟨1, 0, "[]", "[]", "s", some [1]⟩]
            [⟨1, "t", none, none, none, none, true⟩] (fun _ => [0]))
          [⟨1, 0, "[]", "[]", "s", some [1]⟩] (fun _ => none) none).length = 3 ∧
      ∀ i ∈ generate_insights
          (get_clusters [⟨1, 0, "[]", "[]", "s", some [1]⟩]
            [⟨1, "t", none, none, none, none, true⟩] (fun _ => [0]))
          [⟨1, 0, "[]", "[]", "s", some [1]⟩] (fun _ => none) none,
        ("- " ++ i ++ "\n") ∈ generate_news_brief_pieces
          [⟨1, 0, "[]", "[]", "s", some [1]⟩]
          [⟨1, "t", none, none, none, none, true⟩] (fun _ => [0])
          (fun _ => none) none "2026-10-12" :=
  generate_insights_fallback [⟨1, 0, "[]", "[]", "s", some [1]⟩]
    [⟨1, "t", none, none, none, none, true⟩] (fun _ => [0]) (fun _ => none)
    "2026-10-12" (by decide)

end Feeder
